import Mathlib

/-!
Shallow embedding of the Persona Adaptation Engine of the
Persona-Adaptive-Chatbot-Using-RAG repository.

Embedded modules:
* `backend/behavioral_analyzer.py` — `analyze_typing_speed`, `detect_emotion`,
  `map_context`, `analyze_behavior`;
* `backend/persona_engine.py` — `create_new_persona`, `get_or_create_persona`,
  `update_persona`, the top-topics computation of `get_persona_summary`;
* `backend/rag_handler.py` — the `topic_hint` computation of
  `create_persona_aware_prompt`.

Conventions: Python floats are modelled as rationals (`ℚ`); the exact
arithmetic of every claim stays inside ranges where binary floating point is
exact, so `ℚ` is faithful there.  Python `round(x, n)` rounds half to even;
`rndHalfEven` below models it on `ℚ`.  Python strings stay `String`; Python
lists stay `List`; the insertion-ordered Python `dict` used for
`topic_interests` is an association list whose value updates keep the key's
position and whose fresh keys are appended at the end, exactly the observable
order semantics of a CPython 3.7+ dict.
-/

namespace PersonaBot

/-- Round a rational to the nearest integer, ties to even — the tie rule of
Python's builtin `round`. -/
def rndHalfEven (q : ℚ) : ℤ :=
  let n : ℤ := ⌊q⌋
  let f : ℚ := q - n
  if f < 1/2 then n
  else if 1/2 < f then n + 1
  else if n % 2 = 0 then n else n + 1

/-- Python `round(q, 1)`. -/
def round1 (q : ℚ) : ℚ := (rndHalfEven (q * 10) : ℚ) / 10

/-- Python `round(q, 2)`. -/
def round2 (q : ℚ) : ℚ := (rndHalfEven (q * 100) : ℚ) / 100

/-! ## `backend/behavioral_analyzer.py` -/

/-- `analyze_typing_speed(time_diff_seconds)`:
`if t < 2: "very_fast" elif t < 5: "fast" elif t < 15: "moderate" else: "slow"`. -/
def analyze_typing_speed (time_diff_seconds : ℚ) : String :=
  if time_diff_seconds < 2 then "very_fast"
  else if time_diff_seconds < 5 then "fast"
  else if time_diff_seconds < 15 then "moderate"
  else "slow"

/-- The dictionary `{"polarity": ..., "sentiment": ...}` returned by
`detect_emotion`. -/
structure Emotion where
  polarity : ℚ
  sentiment : String
  deriving DecidableEq, Repr

/-- `detect_emotion(text)`, parameterised by the polarity score that
`TextBlob(text).sentiment.polarity` (the pluggable sentiment classifier,
external to this repo) produces for the text.  The label thresholds and the
2-decimal rounding of the returned polarity are the code's own. -/
def detect_emotion (polarity : ℚ) : Emotion :=
  let sentiment : String :=
    if polarity > 3/10 then "positive"
    else if polarity < -(3/10) then "negative"
    else "neutral"
  { polarity := round2 polarity, sentiment := sentiment }

/-- The stopword set `common_words` of `map_context`. -/
def common_words : List String := ["user", "chatbot", "question", "answer", "information"]

/-- Python `word.lower()`, modelled character by character (ASCII lowering;
all inputs appearing in this development are ASCII, where Python's `str.lower`
agrees). -/
def pyLower (s : String) : String := String.mk (s.data.map Char.toLower)

/-- Python `s.startswith(pre)`: `pre` is a prefix of `s`, modelled on the
character lists. -/
def pyStartsWith (s pre : String) : Bool := pre.data.isPrefixOf s.data

/-- The list comprehension inside `map_context`:
`[word.lower() for word, pos in blob.tags if pos.startswith('NN') and
word.lower() not in common_words]`, parameterised by the `(word, pos)` tag
list that `TextBlob(text).tags` (the pluggable part-of-speech model) yields. -/
def map_context_raw (tags : List (String × String)) : List String :=
  (tags.filter (fun wp =>
      pyStartsWith wp.2 "NN" && !(common_words.contains (pyLower wp.1)))).map
    (fun wp => pyLower wp.1)

/-- `map_context` returns `list(set(topics))`.  A CPython `set` of strings
enumerates each element exactly once, in an order that depends on the
interpreter's randomised string hashes; `IsSetList raw l` says `l` is one of
the lists `list(set(raw))` may evaluate to. -/
def IsSetList (raw l : List String) : Prop :=
  l.Nodup ∧ ∀ x, x ∈ l ↔ x ∈ raw

/-- The outputs of the external text models (TextBlob) for one utterance:
its sentiment polarity, its part-of-speech tags, and `len(text.split())`. -/
structure TextModel where
  polarity : ℚ
  tags : List (String × String)
  wordCount : ℕ
  deriving DecidableEq, Repr

/-- The dictionary returned by `analyze_behavior`. -/
structure BehavioralData where
  typing_speed : String
  emotion : Emotion
  topics : List String
  message_length : ℕ
  deriving DecidableEq, Repr

/-- `analyze_behavior(user_input, time_since_last_message)`.  `tm` carries the
text-model outputs for `user_input`; `topicsEnum` is the enumeration of the
deduplicated topic set produced by `list(set(...))` inside `map_context`
(constrained by `IsSetList (map_context_raw tm.tags) topicsEnum` in the
theorems below). -/
def analyze_behavior (tm : TextModel) (time_since_last_message : ℚ)
    (topicsEnum : List String) : BehavioralData :=
  { typing_speed := analyze_typing_speed time_since_last_message
    emotion := detect_emotion tm.polarity
    topics := topicsEnum
    message_length := tm.wordCount }

/-! ## `backend/persona_engine.py` -/

/-- `HISTORY_LENGTH = 10`. -/
def HISTORY_LENGTH : ℕ := 10

/-- The `emotional_state` sub-dictionary of a persona. -/
structure EmotionalState where
  current_sentiment : String
  sentiment_history : List ℚ
  deriving DecidableEq, Repr

/-- The `behavioral_patterns` sub-dictionary of a persona. -/
structure BehavioralPatterns where
  avg_typing_speed : String
  speed_history : List ℕ
  avg_message_length : ℚ
  length_history : List ℕ
  deriving DecidableEq, Repr

/-- The persona dictionary created by `create_new_persona` and mutated by
`update_persona`.  `topic_interests` is the insertion-ordered string-to-count
dict under `contextual_preferences`. -/
structure Persona where
  user_id : String
  communication_style : String
  emotional_state : EmotionalState
  behavioral_patterns : BehavioralPatterns
  topic_interests : List (String × ℕ)
  interaction_count : ℕ
  deriving DecidableEq, Repr

/-- `create_new_persona(user_id)` (the `os.makedirs` side effect is I/O and
not part of the returned value). -/
def create_new_persona (user_id : String) : Persona :=
  { user_id := user_id
    communication_style := "neutral"
    emotional_state :=
      { current_sentiment := "neutral", sentiment_history := [] }
    behavioral_patterns :=
      { avg_typing_speed := "moderate", speed_history := [],
        avg_message_length := 20, length_history := [] }
    topic_interests := []
    interaction_count := 0 }

/-- The history update pattern of `update_persona`:
`h.append(x); if len(h) > HISTORY_LENGTH: h.pop(0)`. -/
def pushCap {α : Type} (h : List α) (x : α) : List α :=
  let h' := h ++ [x]
  if h'.length > HISTORY_LENGTH then h'.tail else h'

/-- `speed_map = {"very_fast": 4, "fast": 3, "moderate": 2, "slow": 1}`,
accessed as `speed_map.get(ts, 2)`. -/
def speed_map_get (ts : String) : ℕ :=
  if ts = "very_fast" then 4
  else if ts = "fast" then 3
  else if ts = "moderate" then 2
  else if ts = "slow" then 1
  else 2

/-- `d.get(t, 0)` on the insertion-ordered `topic_interests` dict. -/
def dictGet (d : List (String × ℕ)) (t : String) : ℕ :=
  match d with
  | [] => 0
  | (k, v) :: rest => if k = t then v else dictGet rest t

/-- `d[t] = d.get(t, 0) + 1` on the insertion-ordered dict: updating an
existing key keeps its position, a new key is appended at the end. -/
def dictInc (d : List (String × ℕ)) (t : String) : List (String × ℕ) :=
  match d with
  | [] => [(t, 1)]
  | (k, v) :: rest => if k = t then (k, v + 1) :: rest else (k, v) :: dictInc rest t

/-- `update_persona(persona, behavioral_data)`, step for step. -/
def update_persona (persona : Persona) (behavioral_data : BehavioralData) : Persona :=
  let sentiment_history :=
    pushCap persona.emotional_state.sentiment_history behavioral_data.emotion.polarity
  let speed_history :=
    pushCap persona.behavioral_patterns.speed_history
      (speed_map_get behavioral_data.typing_speed)
  let avg_speed_val : ℚ :=
    if speed_history.isEmpty then 2
    else (speed_history.sum : ℚ) / (speed_history.length : ℚ)
  let avg_typing_speed : String :=
    if avg_speed_val > 35/10 then "very_fast"
    else if avg_speed_val > 25/10 then "fast"
    else if avg_speed_val > 15/10 then "moderate"
    else "slow"
  let length_history :=
    pushCap persona.behavioral_patterns.length_history behavioral_data.message_length
  let avg_message_length : ℚ :=
    if length_history.isEmpty then 20
    else round1 ((length_history.sum : ℚ) / (length_history.length : ℚ))
  let communication_style : String :=
    if avg_message_length > 30 then "detailed"
    else if avg_message_length < 10 then "brief"
    else "neutral"
  let topic_interests :=
    behavioral_data.topics.foldl dictInc persona.topic_interests
  { persona with
    interaction_count := persona.interaction_count + 1
    emotional_state :=
      { current_sentiment := behavioral_data.emotion.sentiment
        sentiment_history := sentiment_history }
    behavioral_patterns :=
      { avg_typing_speed := avg_typing_speed
        speed_history := speed_history
        avg_message_length := avg_message_length
        length_history := length_history }
    communication_style := communication_style
    topic_interests := topic_interests }

/-- `get_or_create_persona(user_id)`.  The file system interaction is made
explicit: `stored` is `none` when `os.path.exists(filepath)` is false, and
otherwise carries the outcome of `json.load` on the file — `Except.ok p` for
a well-formed record, `Except.error e` when `json.load` raises
(`json.JSONDecodeError` on a corrupt record).  The code does not catch that
exception, so it propagates to the caller; in the embedding the function
returns it as `Except.error e`. -/
def get_or_create_persona (user_id : String)
    (stored : Option (Except String Persona)) : Except String Persona :=
  match stored with
  | some (Except.ok persona_data) => Except.ok persona_data
  | some (Except.error e) => Except.error e
  | none => Except.ok (create_new_persona user_id)

/-- Stable descending insertion by the count component: the inserted entry
goes before every entry whose count is not strictly larger.  Auxiliary to
`sorted_by_count_desc`. -/
def insertByCountDesc (x : String × ℕ) : List (String × ℕ) → List (String × ℕ)
  | [] => [x]
  | y :: ys => if x.2 < y.2 then y :: insertByCountDesc x ys else x :: y :: ys

/-- `sorted(d.items(), key=lambda item: item[1], reverse=True)` on the
insertion-ordered `topic_interests` dict, as used both in
`get_persona_summary` (persona_engine.py) and in `create_persona_aware_prompt`
(rag_handler.py).  Python's `sorted` is a stable sort; a stable sort for a
given comparison is unique, and the insertion sort below realises it
(descending by count, ties kept in dict insertion order). -/
def sorted_by_count_desc (d : List (String × ℕ)) : List (String × ℕ) :=
  d.foldr insertByCountDesc []

/-- The `top_topics = sorted(topics.items(), key=..., reverse=True)[:3]`
computation of `get_persona_summary`; the summary string renders exactly the
first components of this list, in this order. -/
def summary_top_topics (persona : Persona) : List (String × ℕ) :=
  (sorted_by_count_desc persona.topic_interests).take 3

/-- The topic names `[t[0] for t in top_topics[:3]]` joined into the topic
hint of `create_persona_aware_prompt`. -/
def hint_topic_names (persona : Persona) : List String :=
  ((sorted_by_count_desc persona.topic_interests).take 3).map Prod.fst

/-- The `topic_hint` string of `create_persona_aware_prompt`: empty when
`top_topics` is empty, else the phrase naming the top-3 topics in order. -/
def topic_hint (persona : Persona) : String :=
  let top_topics := sorted_by_count_desc persona.topic_interests
  if top_topics.isEmpty then ""
  else "The user is often interested in topics like "
    ++ String.intercalate ", " (hint_topic_names persona) ++ "."

/-! ## Persistence round-trip (`save_persona` / `get_or_create_persona`)

`save_persona` writes the persona dict with `json.dump`, and loading reads it
back with `json.load`; both live in the Python standard library, outside this
repository. -/

/-- Modelled from the spec: the JSON value space of the persistence
collaborator (`json.dump`/`json.load` are stdlib, not in `src/`); the spec's
§6 load/save contract only requires a record carrying every profile field. -/
inductive Json where
  | str : String → Json
  | num : ℚ → Json
  | arr : List Json → Json
  | obj : List (String × Json) → Json

/-- Modelled from the spec: what `json.dump` in `save_persona` writes — the
persona dict of `create_new_persona`/`update_persona`, field for field. -/
def encode_persona (p : Persona) : Json :=
  Json.obj
    [("user_id", Json.str p.user_id),
     ("communication_style", Json.str p.communication_style),
     ("emotional_state", Json.obj
        [("current_sentiment", Json.str p.emotional_state.current_sentiment),
         ("sentiment_history",
            Json.arr (p.emotional_state.sentiment_history.map Json.num))]),
     ("behavioral_patterns", Json.obj
        [("avg_typing_speed", Json.str p.behavioral_patterns.avg_typing_speed),
         ("speed_history",
            Json.arr (p.behavioral_patterns.speed_history.map
              (fun n : ℕ => Json.num (n : ℚ)))),
         ("avg_message_length", Json.num p.behavioral_patterns.avg_message_length),
         ("length_history",
            Json.arr (p.behavioral_patterns.length_history.map
              (fun n : ℕ => Json.num (n : ℚ))))]),
     ("contextual_preferences", Json.obj
        [("topic_interests", Json.obj
            (p.topic_interests.map
              (fun kv : String × ℕ => (kv.1, Json.num (kv.2 : ℚ)))))]),
     ("interaction_count", Json.num (p.interaction_count : ℚ))]

/-- Modelled from the spec: decoding a JSON number back to the non-negative
integer it serialised. -/
def decodeNat (j : Json) : Except String ℕ :=
  match j with
  | Json.num q => if q.den = 1 ∧ 0 ≤ q.num then Except.ok q.num.toNat
                  else Except.error "not a non-negative integer"
  | _ => Except.error "not a number"

/-- Modelled from the spec: decoding a JSON array of numbers. -/
def decodeRatList (l : List Json) : Except String (List ℚ) :=
  match l with
  | [] => Except.ok []
  | Json.num q :: rest => (decodeRatList rest).map (fun t => q :: t)
  | _ => Except.error "not a number array"

/-- Modelled from the spec: decoding a JSON array of integers. -/
def decodeNatList (l : List Json) : Except String (List ℕ) :=
  match l with
  | [] => Except.ok []
  | j :: rest => do
      let n ← decodeNat j
      let t ← decodeNatList rest
      Except.ok (n :: t)

/-- Modelled from the spec: decoding the `topic_interests` object. -/
def decodeTopics (l : List (String × Json)) : Except String (List (String × ℕ)) :=
  match l with
  | [] => Except.ok []
  | (k, j) :: rest => do
      let n ← decodeNat j
      let t ← decodeTopics rest
      Except.ok ((k, n) :: t)

/-- Modelled from the spec: decoding the `emotional_state` sub-record. -/
def decodeEmotionalState (j : Json) : Except String EmotionalState :=
  match j with
  | Json.obj [("current_sentiment", Json.str cur),
      ("sentiment_history", Json.arr sh)] => do
      let sh' ← decodeRatList sh
      Except.ok (EmotionalState.mk cur sh')
  | _ => Except.error "corrupt emotional_state record"

/-- Modelled from the spec: decoding the `behavioral_patterns` sub-record. -/
def decodeBehavioralPatterns (j : Json) : Except String BehavioralPatterns :=
  match j with
  | Json.obj [("avg_typing_speed", Json.str ats),
      ("speed_history", Json.arr sph),
      ("avg_message_length", Json.num aml),
      ("length_history", Json.arr lh)] => do
      let sph' ← decodeNatList sph
      let lh' ← decodeNatList lh
      Except.ok (BehavioralPatterns.mk ats sph' aml lh')
  | _ => Except.error "corrupt behavioral_patterns record"

/-- Modelled from the spec: what `json.load` recovers from a record written
by `save_persona` — the inverse of `encode_persona` on well-formed records,
`Except.error` on anything else (the corrupt-record case of
`get_or_create_persona`). -/
def decode_persona (j : Json) : Except String Persona :=
  match j with
  | Json.obj
      [("user_id", Json.str uid),
       ("communication_style", Json.str cs),
       ("emotional_state", es),
       ("behavioral_patterns", bp),
       ("contextual_preferences", Json.obj
          [("topic_interests", Json.obj ti)]),
       ("interaction_count", icj)] => do
      let es' ← decodeEmotionalState es
      let bp' ← decodeBehavioralPatterns bp
      let ti' ← decodeTopics ti
      let ic ← decodeNat icj
      Except.ok
        { user_id := uid
          communication_style := cs
          emotional_state := es'
          behavioral_patterns := bp'
          topic_interests := ti'
          interaction_count := ic }
  | _ => Except.error "corrupt persona record"

/-! ## Lemmas about the bounded histories -/

theorem pushCap_length_eq {α : Type} (h : List α) (x : α) :
    (pushCap h x).length =
      if h.length + 1 > HISTORY_LENGTH then h.length else h.length + 1 := by
  simp only [pushCap, List.length_append, List.length_singleton]
  by_cases hc : h.length + 1 > HISTORY_LENGTH
  · simp [hc, List.length_tail]
  · simp [hc]

theorem pushCap_length {α : Type} (h : List α) (x : α)
    (hle : h.length ≤ HISTORY_LENGTH) :
    (pushCap h x).length = min (h.length + 1) HISTORY_LENGTH := by
  rw [pushCap_length_eq]
  simp only [HISTORY_LENGTH] at *
  split <;> omega

theorem pushCap_pos {α : Type} (h : List α) (x : α) : 0 < (pushCap h x).length := by
  rw [pushCap_length_eq]
  simp only [HISTORY_LENGTH]
  split <;> omega

theorem pushCap_isEmpty_false {α : Type} (h : List α) (x : α) :
    (pushCap h x).isEmpty = false := by
  have hp := pushCap_pos h x
  cases hE : pushCap h x with
  | nil => rw [hE] at hp; simp at hp
  | cons a t => simp

theorem update_sentiment_history (p : Persona) (b : BehavioralData) :
    (update_persona p b).emotional_state.sentiment_history
      = pushCap p.emotional_state.sentiment_history b.emotion.polarity := rfl

theorem update_speed_history (p : Persona) (b : BehavioralData) :
    (update_persona p b).behavioral_patterns.speed_history
      = pushCap p.behavioral_patterns.speed_history
          (speed_map_get b.typing_speed) := rfl

theorem update_length_history (p : Persona) (b : BehavioralData) :
    (update_persona p b).behavioral_patterns.length_history
      = pushCap p.behavioral_patterns.length_history b.message_length := rfl

theorem update_interaction_count (p : Persona) (b : BehavioralData) :
    (update_persona p b).interaction_count = p.interaction_count + 1 := rfl

theorem update_topic_interests (p : Persona) (b : BehavioralData) :
    (update_persona p b).topic_interests
      = b.topics.foldl dictInc p.topic_interests := rfl

theorem update_avg_message_length_def (p : Persona) (b : BehavioralData) :
    (update_persona p b).behavioral_patterns.avg_message_length
      = (if (pushCap p.behavioral_patterns.length_history b.message_length).isEmpty
          then (20 : ℚ)
          else round1
            (((pushCap p.behavioral_patterns.length_history b.message_length).sum : ℚ)
              / ((pushCap p.behavioral_patterns.length_history b.message_length).length : ℚ))) :=
  rfl

theorem update_avg_message_length (p : Persona) (b : BehavioralData) :
    (update_persona p b).behavioral_patterns.avg_message_length
      = round1 ((((update_persona p b).behavioral_patterns.length_history).sum : ℚ)
          / (((update_persona p b).behavioral_patterns.length_history).length : ℚ)) := by
  rw [update_avg_message_length_def, pushCap_isEmpty_false, update_length_history]
  simp

theorem foldl_sentiment_length (sigs : List BehavioralData) :
    ∀ p : Persona, p.emotional_state.sentiment_history.length ≤ HISTORY_LENGTH →
      ((sigs.foldl update_persona p).emotional_state.sentiment_history).length
        = min (p.emotional_state.sentiment_history.length + sigs.length)
            HISTORY_LENGTH := by
  induction sigs with
  | nil =>
      intro p hp
      simp only [List.foldl_nil, List.length_nil, Nat.add_zero]
      omega
  | cons s rest ih =>
      intro p hp
      rw [List.foldl_cons,
        ih (update_persona p s)
          (by rw [update_sentiment_history, pushCap_length _ _ hp]; omega),
        update_sentiment_history, pushCap_length _ _ hp]
      simp only [List.length_cons]
      omega

theorem foldl_speed_length (sigs : List BehavioralData) :
    ∀ p : Persona, p.behavioral_patterns.speed_history.length ≤ HISTORY_LENGTH →
      ((sigs.foldl update_persona p).behavioral_patterns.speed_history).length
        = min (p.behavioral_patterns.speed_history.length + sigs.length)
            HISTORY_LENGTH := by
  induction sigs with
  | nil =>
      intro p hp
      simp only [List.foldl_nil, List.length_nil, Nat.add_zero]
      omega
  | cons s rest ih =>
      intro p hp
      rw [List.foldl_cons,
        ih (update_persona p s)
          (by rw [update_speed_history, pushCap_length _ _ hp]; omega),
        update_speed_history, pushCap_length _ _ hp]
      simp only [List.length_cons]
      omega

theorem foldl_length_length (sigs : List BehavioralData) :
    ∀ p : Persona, p.behavioral_patterns.length_history.length ≤ HISTORY_LENGTH →
      ((sigs.foldl update_persona p).behavioral_patterns.length_history).length
        = min (p.behavioral_patterns.length_history.length + sigs.length)
            HISTORY_LENGTH := by
  induction sigs with
  | nil =>
      intro p hp
      simp only [List.foldl_nil, List.length_nil, Nat.add_zero]
      omega
  | cons s rest ih =>
      intro p hp
      rw [List.foldl_cons,
        ih (update_persona p s)
          (by rw [update_length_history, pushCap_length _ _ hp]; omega),
        update_length_history, pushCap_length _ _ hp]
      simp only [List.length_cons]
      omega

theorem foldl_interaction_count (sigs : List BehavioralData) :
    ∀ p : Persona,
      (sigs.foldl update_persona p).interaction_count
        = p.interaction_count + sigs.length := by
  induction sigs with
  | nil => intro p; simp
  | cons s rest ih =>
      intro p
      rw [List.foldl_cons, ih (update_persona p s), update_interaction_count]
      simp only [List.length_cons]
      omega

/-! ## Claim theorems -/

/-- C1: for every sequence of N `update_persona` folds applied to a freshly
created profile, the three histories have equal length
`min(N, 10)` and `interaction_count = N`. -/
theorem histories_bounded_and_synced (user_id : String)
    (sigs : List BehavioralData) :
    ((sigs.foldl update_persona (create_new_persona user_id)).emotional_state.sentiment_history).length
        = min sigs.length 10
  ∧ ((sigs.foldl update_persona (create_new_persona user_id)).behavioral_patterns.speed_history).length
        = min sigs.length 10
  ∧ ((sigs.foldl update_persona (create_new_persona user_id)).behavioral_patterns.length_history).length
        = min sigs.length 10
  ∧ (sigs.foldl update_persona (create_new_persona user_id)).interaction_count
        = sigs.length := by
  have h1 := foldl_sentiment_length sigs (create_new_persona user_id) (by simp [create_new_persona, HISTORY_LENGTH])
  have h2 := foldl_speed_length sigs (create_new_persona user_id) (by simp [create_new_persona, HISTORY_LENGTH])
  have h3 := foldl_length_length sigs (create_new_persona user_id) (by simp [create_new_persona, HISTORY_LENGTH])
  have h4 := foldl_interaction_count sigs (create_new_persona user_id)
  simp only [create_new_persona, List.length_nil, Nat.zero_add, HISTORY_LENGTH] at h1 h2 h3 h4
  exact ⟨h1, h2, h3, h4⟩

theorem foldl_length_history (sigs : List BehavioralData) :
    ∀ p : Persona,
      ((sigs.foldl update_persona p).behavioral_patterns.length_history)
        = sigs.foldl (fun h s => pushCap h s.message_length)
            p.behavioral_patterns.length_history := by
  induction sigs with
  | nil => intro p; rfl
  | cons s rest ih =>
      intro p
      rw [List.foldl_cons, List.foldl_cons, ih, update_length_history]

/-- A signal whose only distinguishing feature is its word count — the
Scenario-3 input family of the spec. -/
def lenSig (n : ℕ) : BehavioralData :=
  { typing_speed := "moderate"
    emotion := { polarity := 0, sentiment := "neutral" }
    topics := []
    message_length := n }

/-- Scenario 3 of the spec: 11 consecutive signals whose `message_length`
values are 1..11. -/
def lenSigs : List BehavioralData :=
  [lenSig 1, lenSig 2, lenSig 3, lenSig 4, lenSig 5, lenSig 6,
   lenSig 7, lenSig 8, lenSig 9, lenSig 10, lenSig 11]

/-- C2: after every fold `avg_message_length = round(mean(length_history), 1)`,
the oldest entry being evicted first past capacity 10; folding 11 signals of
lengths 1..11 into a fresh profile leaves `length_history = [2,...,11]` and
`avg_message_length = 6.5`. -/
theorem avg_message_length_tracks_mean :
    (∀ (p : Persona) (b : BehavioralData),
      (update_persona p b).behavioral_patterns.avg_message_length
        = round1 ((((update_persona p b).behavioral_patterns.length_history).sum : ℚ)
            / (((update_persona p b).behavioral_patterns.length_history).length : ℚ)))
  ∧ (lenSigs.foldl update_persona (create_new_persona "u")).behavioral_patterns.length_history
      = [2, 3, 4, 5, 6, 7, 8, 9, 10, 11]
  ∧ (lenSigs.foldl update_persona (create_new_persona "u")).behavioral_patterns.avg_message_length
      = 13/2 := by
  have hl : (lenSigs.foldl update_persona (create_new_persona "u")).behavioral_patterns.length_history
      = [2, 3, 4, 5, 6, 7, 8, 9, 10, 11] := by
    rw [foldl_length_history]
    decide
  refine ⟨update_avg_message_length, hl, ?_⟩
  have ha : lenSigs.foldl update_persona (create_new_persona "u")
      = update_persona
          (([lenSig 1, lenSig 2, lenSig 3, lenSig 4, lenSig 5, lenSig 6,
             lenSig 7, lenSig 8, lenSig 9, lenSig 10]).foldl update_persona
            (create_new_persona "u")) (lenSig 11) := rfl
  rw [ha, update_avg_message_length, ← ha, hl]
  norm_num [List.sum_cons, List.sum_nil, round1, rndHalfEven]

/-- C3: the typing-speed bucket follows the half-open intervals
`[0,2) → very_fast`, `[2,5) → fast`, `[5,15) → moderate`, `[15,∞) → slow`
(each boundary value landing in the bucket whose lower bound it is), and a
negative elapsed time behaves exactly like 0 — `very_fast`, never an error. -/
theorem typing_speed_buckets (t : ℚ) :
    (analyze_typing_speed t = "very_fast" ↔ t < 2)
  ∧ (analyze_typing_speed t = "fast" ↔ 2 ≤ t ∧ t < 5)
  ∧ (analyze_typing_speed t = "moderate" ↔ 5 ≤ t ∧ t < 15)
  ∧ (analyze_typing_speed t = "slow" ↔ 15 ≤ t)
  ∧ (t < 0 → analyze_typing_speed t = analyze_typing_speed 0
        ∧ analyze_typing_speed 0 = "very_fast") := by
  unfold analyze_typing_speed
  split_ifs with h1 h2 h3 <;>
    refine ⟨?_, ?_, ?_, ?_, fun hneg => ?_⟩ <;>
    simp_all <;>
    first
      | linarith
      | (constructor <;> linarith)
      | (intro h; linarith)

/-- Witness for C3 at the concrete input `t = -1`. -/
theorem typing_speed_buckets_witness :
    analyze_typing_speed (-1) = analyze_typing_speed 0
      ∧ analyze_typing_speed 0 = "very_fast" :=
  (typing_speed_buckets (-1)).2.2.2.2 (by norm_num)

/-- C4: the label attached by `detect_emotion` is `positive` iff the
classifier polarity exceeds 0.3, `negative` iff it is below -0.3, and
`neutral` otherwise; the boundary polarities 0.3 and -0.3 are `neutral`. -/
theorem sentiment_label_thresholds (p : ℚ) :
    ((detect_emotion p).sentiment = "positive" ↔ p > 3/10)
  ∧ ((detect_emotion p).sentiment = "negative" ↔ p < -(3/10))
  ∧ ((detect_emotion p).sentiment = "neutral" ↔ -(3/10) ≤ p ∧ p ≤ 3/10)
  ∧ (detect_emotion (3/10)).sentiment = "neutral"
  ∧ (detect_emotion (-(3/10))).sentiment = "neutral" := by
  refine ⟨?_, ?_, ?_, by norm_num [detect_emotion], by norm_num [detect_emotion]⟩ <;>
    unfold detect_emotion <;>
    split_ifs with h1 h2 <;>
    simp_all <;>
    first
      | linarith
      | (constructor <;> linarith)
      | (intro h; linarith)

/-- C10: `detect_emotion` decides the label from the *unrounded* polarity but
returns the polarity rounded to two decimals, so the returned fields can be
inconsistent with the published thresholds: polarity 0.301 yields the field
0.3 with label `positive` (and -0.301 yields -0.3 with label `negative`),
while polarity exactly 0.3 yields the same field 0.3 with label `neutral`. -/
theorem label_uses_unrounded_polarity :
    (∀ p : ℚ, detect_emotion p
        = { polarity := round2 p,
            sentiment :=
              if p > 3/10 then "positive"
              else if p < -(3/10) then "negative" else "neutral" })
  ∧ (detect_emotion (301/1000)).polarity = 3/10
  ∧ (detect_emotion (301/1000)).sentiment = "positive"
  ∧ (detect_emotion (3/10)).polarity = 3/10
  ∧ (detect_emotion (3/10)).sentiment = "neutral"
  ∧ (detect_emotion (-(301/1000))).polarity = -(3/10)
  ∧ (detect_emotion (-(301/1000))).sentiment = "negative" := by
  refine ⟨fun p => rfl, ?_, ?_, ?_, ?_, ?_, ?_⟩ <;>
    norm_num [detect_emotion, round2, rndHalfEven]

/-! ## Lemmas about the `topic_interests` dict -/

theorem dictGet_dictInc (d : List (String × ℕ)) (t u : String) :
    dictGet (dictInc d u) t = dictGet d t + (if t = u then 1 else 0) := by
  induction d with
  | nil =>
      by_cases hut : u = t
      · subst hut; simp [dictInc, dictGet]
      · have htu : ¬t = u := fun h => hut h.symm
        simp [dictInc, dictGet, hut, htu]
  | cons kv rest ih =>
      obtain ⟨k, v⟩ := kv
      by_cases hku : k = u
      · subst hku
        by_cases hkt : k = t
        · subst hkt; simp [dictInc, dictGet]
        · have htk : ¬t = k := fun h => hkt h.symm
          simp [dictInc, dictGet, hkt, htk]
      · by_cases hkt : k = t
        · subst hkt
          have htu : ¬k = u := hku
          simp [dictInc, dictGet, hku, htu]
        · simp [dictInc, dictGet, hku, hkt, ih]

theorem dictGet_foldl_dictInc (topics : List String) :
    ∀ (d : List (String × ℕ)) (t : String), topics.Nodup →
      dictGet (topics.foldl dictInc d) t
        = dictGet d t + (if t ∈ topics then 1 else 0) := by
  induction topics with
  | nil => intro d t _; simp
  | cons u rest ih =>
      intro d t hnd
      obtain ⟨hu, hrest⟩ := List.nodup_cons.mp hnd
      rw [List.foldl_cons, ih _ _ hrest, dictGet_dictInc]
      by_cases htu : t = u
      · subst htu
        simp [hu]
      · simp [htu, List.mem_cons]

theorem mem_keys_dictInc (d : List (String × ℕ)) (t u : String) :
    t ∈ (dictInc d u).map Prod.fst ↔ t ∈ d.map Prod.fst ∨ t = u := by
  induction d with
  | nil => simp [dictInc, eq_comm]
  | cons kv rest ih =>
      obtain ⟨k, v⟩ := kv
      by_cases hku : k = u
      · subst hku
        simp [dictInc, eq_comm]
        tauto
      · simp [dictInc, hku, ih]
        tauto

theorem mem_keys_foldl_dictInc (topics : List String) :
    ∀ (d : List (String × ℕ)) (t : String),
      t ∈ (topics.foldl dictInc d).map Prod.fst
        ↔ t ∈ d.map Prod.fst ∨ t ∈ topics := by
  induction topics with
  | nil => intro d t; simp
  | cons u rest ih =>
      intro d t
      rw [List.foldl_cons, ih, mem_keys_dictInc]
      simp [List.mem_cons]
      tauto

theorem foldl_topic_count (sigs : List BehavioralData) :
    ∀ (p : Persona) (t : String), (∀ s ∈ sigs, s.topics.Nodup) →
      dictGet ((sigs.foldl update_persona p).topic_interests) t
        = dictGet p.topic_interests t
            + sigs.countP (fun s => decide (t ∈ s.topics)) := by
  induction sigs with
  | nil => intro p t _; simp
  | cons s rest ih =>
      intro p t hnd
      rw [List.foldl_cons, ih _ _ (fun s' hs' => hnd s' (List.mem_cons_of_mem s hs')),
        update_topic_interests,
        dictGet_foldl_dictInc _ _ _ (hnd s (List.mem_cons_self s rest)),
        List.countP_cons]
      by_cases hts : t ∈ s.topics <;> simp [hts] <;> omega

theorem foldl_topic_keys (sigs : List BehavioralData) :
    ∀ (p : Persona) (t : String),
      t ∈ ((sigs.foldl update_persona p).topic_interests).map Prod.fst
        ↔ t ∈ p.topic_interests.map Prod.fst ∨ ∃ s ∈ sigs, t ∈ s.topics := by
  induction sigs with
  | nil => intro p t; simp
  | cons s rest ih =>
      intro p t
      rw [List.foldl_cons, ih, update_topic_interests, mem_keys_foldl_dictInc]
      simp only [List.mem_cons]
      constructor
      · rintro ((h | h) | h)
        · exact Or.inl h
        · exact Or.inr ⟨s, Or.inl rfl, h⟩
        · obtain ⟨s', hs', ht'⟩ := h
          exact Or.inr ⟨s', Or.inr hs', ht'⟩
      · rintro (h | ⟨s', (rfl | hs'), ht'⟩)
        · exact Or.inl (Or.inl h)
        · exact Or.inl (Or.inr ht')
        · exact Or.inr ⟨s', hs', ht'⟩

/-- C5: after any fold sequence from a fresh profile, `topic_interests[t]` is
exactly the number of signals whose (deduplicated) topic set contains `t`
(no cap, no eviction), and a key is present in the dict iff the topic ever
appeared in some signal. -/
theorem topic_interests_exact_counts (user_id t : String)
    (sigs : List BehavioralData) (h : ∀ s ∈ sigs, s.topics.Nodup) :
    dictGet ((sigs.foldl update_persona (create_new_persona user_id)).topic_interests) t
        = sigs.countP (fun s => decide (t ∈ s.topics))
  ∧ (t ∈ ((sigs.foldl update_persona (create_new_persona user_id)).topic_interests).map Prod.fst
        ↔ ∃ s ∈ sigs, t ∈ s.topics) := by
  constructor
  · rw [foldl_topic_count sigs _ t h]
    simp [create_new_persona, dictGet]
  · rw [foldl_topic_keys]
    simp [create_new_persona]

/-- A signal distinguished only by its topic list — the Scenario-5 input
family of the spec. -/
def topicSig (ts : List String) : BehavioralData :=
  { typing_speed := "moderate"
    emotion := { polarity := 0, sentiment := "neutral" }
    topics := ts
    message_length := 1 }

/-- Witness for C5: folding topics `{"python","rust"}` then `{"python"}` into
a fresh profile counts `python` twice. -/
theorem topic_interests_exact_counts_witness :
    (∀ s ∈ [topicSig ["python", "rust"], topicSig ["python"]], s.topics.Nodup)
  ∧ dictGet (([topicSig ["python", "rust"], topicSig ["python"]].foldl update_persona
        (create_new_persona "u")).topic_interests) "python" = 2 := by
  have hnd : ∀ s ∈ [topicSig ["python", "rust"], topicSig ["python"]], s.topics.Nodup := by
    intro s hs
    fin_cases hs <;> simp [topicSig]
  refine ⟨hnd, ?_⟩
  rw [(topic_interests_exact_counts "u" "python"
    [topicSig ["python", "rust"], topicSig ["python"]] hnd).1]
  decide

/-! ## Lemmas about the top-topics sort -/

theorem mem_insertByCountDesc (x : String × ℕ) (l : List (String × ℕ)) (y : String × ℕ) :
    y ∈ insertByCountDesc x l ↔ y = x ∨ y ∈ l := by
  induction l with
  | nil => simp [insertByCountDesc]
  | cons z zs ih =>
      simp only [insertByCountDesc]
      split_ifs with h
      · simp [List.mem_cons, ih]
        tauto
      · simp [List.mem_cons]

theorem pairwise_insertByCountDesc (x : String × ℕ) (l : List (String × ℕ))
    (h : l.Pairwise (fun a b => b.2 ≤ a.2)) :
    (insertByCountDesc x l).Pairwise (fun a b => b.2 ≤ a.2) := by
  induction l with
  | nil => simp [insertByCountDesc]
  | cons y ys ih =>
      rw [List.pairwise_cons] at h
      simp only [insertByCountDesc]
      split_ifs with hxy
      · rw [List.pairwise_cons]
        refine ⟨?_, ih h.2⟩
        intro z hz
        rcases (mem_insertByCountDesc x ys z).mp hz with rfl | hz'
        · exact le_of_lt hxy
        · exact h.1 z hz'
      · rw [List.pairwise_cons]
        refine ⟨?_, List.pairwise_cons.mpr h⟩
        intro z hz
        rcases List.mem_cons.mp hz with rfl | hz'
        · omega
        · exact le_trans (h.1 z hz') (by omega)

theorem filter_insertByCountDesc (x : String × ℕ) (l : List (String × ℕ)) (c : ℕ) :
    (insertByCountDesc x l).filter (fun e => e.2 == c)
      = if x.2 = c then x :: l.filter (fun e => e.2 == c)
        else l.filter (fun e => e.2 == c) := by
  induction l with
  | nil =>
      by_cases hxc : x.2 = c <;> simp [insertByCountDesc, hxc]
  | cons y ys ih =>
      simp only [insertByCountDesc]
      by_cases hxy : x.2 < y.2
      · rw [if_pos hxy]
        by_cases hyc : y.2 = c
        · have hxc : ¬x.2 = c := by omega
          simp [List.filter_cons, hyc, hxc, ih]
        · by_cases hxc : x.2 = c <;> simp [List.filter_cons, hyc, hxc, ih]
      · rw [if_neg hxy]
        by_cases hxc : x.2 = c <;> simp [List.filter_cons, hxc]

theorem perm_insertByCountDesc (x : String × ℕ) (l : List (String × ℕ)) :
    List.Perm (insertByCountDesc x l) (x :: l) := by
  induction l with
  | nil => exact List.Perm.refl _
  | cons y ys ih =>
      simp only [insertByCountDesc]
      split_ifs with h
      · exact (ih.cons y).trans (List.Perm.swap x y ys)
      · exact List.Perm.refl _

theorem sorted_by_count_desc_pairwise (d : List (String × ℕ)) :
    (sorted_by_count_desc d).Pairwise (fun a b => b.2 ≤ a.2) := by
  induction d with
  | nil => simp [sorted_by_count_desc]
  | cons x xs ih =>
      exact pairwise_insertByCountDesc x _ ih

theorem sorted_by_count_desc_filter (d : List (String × ℕ)) (c : ℕ) :
    (sorted_by_count_desc d).filter (fun e => e.2 == c)
      = d.filter (fun e => e.2 == c) := by
  induction d with
  | nil => rfl
  | cons x xs ih =>
      show (insertByCountDesc x (sorted_by_count_desc xs)).filter _ = _
      rw [filter_insertByCountDesc]
      by_cases hxc : x.2 = c <;> simp [List.filter_cons, hxc, ih]

theorem sorted_by_count_desc_perm (d : List (String × ℕ)) :
    List.Perm (sorted_by_count_desc d) d := by
  induction d with
  | nil => exact List.Perm.refl _
  | cons x xs ih =>
      exact (perm_insertByCountDesc x _).trans (ih.cons x)

/-- C6: the top-3 topic list is sorted by descending count; entries of equal
count appear in their `topic_interests` (first-insertion) order — the sorted
list filtered to any fixed count `c` is exactly the dict filtered to `c`, in
dict order; the summary and the prompt hint use the same top-3 list; the hint
is the empty string on an empty `topic_interests`; and after folding topics
`{"python","rust"}` then `{"python"}` (either set-enumeration order of the
first signal), the hint names `python` before `rust`. -/
theorem top_topics_ordering (p : Persona) (c : ℕ) :
    (summary_top_topics p).Pairwise (fun a b => b.2 ≤ a.2)
  ∧ summary_top_topics p = (sorted_by_count_desc p.topic_interests).take 3
  ∧ hint_topic_names p = (summary_top_topics p).map Prod.fst
  ∧ List.Perm (sorted_by_count_desc p.topic_interests) p.topic_interests
  ∧ ((sorted_by_count_desc p.topic_interests).filter (fun e => e.2 == c)
        = p.topic_interests.filter (fun e => e.2 == c))
  ∧ (p.topic_interests = [] → topic_hint p = "")
  ∧ hint_topic_names ([topicSig ["python", "rust"], topicSig ["python"]].foldl
        update_persona (create_new_persona "u")) = ["python", "rust"]
  ∧ hint_topic_names ([topicSig ["rust", "python"], topicSig ["python"]].foldl
        update_persona (create_new_persona "u")) = ["python", "rust"]
  ∧ topic_hint ([topicSig ["python", "rust"], topicSig ["python"]].foldl
        update_persona (create_new_persona "u"))
      = "The user is often interested in topics like python, rust." := by
  refine ⟨?_, rfl, rfl, sorted_by_count_desc_perm _, sorted_by_count_desc_filter _ c,
    ?_, by decide, by decide, by decide⟩
  · exact List.Pairwise.sublist (List.take_sublist 3 _)
      (sorted_by_count_desc_pairwise p.topic_interests)
  · intro hempty
    simp [topic_hint, sorted_by_count_desc, hempty]

/-! ## Determinism of `analyze_behavior` -/

/-- A concrete tag list: two noun-tagged, non-stopword words. -/
def tagsPR : List (String × String) := [("Python", "NNP"), ("Rust", "NNP")]

/-- Concrete text-model outputs for an utterance tagged `tagsPR`. -/
def tmPR : TextModel := { polarity := 0, tags := tagsPR, wordCount := 2 }

theorem map_context_raw_tagsPR : map_context_raw tagsPR = ["python", "rust"] := by
  decide

theorem isSetList_PR_fwd : IsSetList (map_context_raw tagsPR) ["python", "rust"] := by
  rw [map_context_raw_tagsPR]
  exact ⟨by decide, fun x => Iff.rfl⟩

theorem isSetList_PR_rev : IsSetList (map_context_raw tagsPR) ["rust", "python"] := by
  rw [map_context_raw_tagsPR]
  refine ⟨by decide, fun x => ?_⟩
  simp [List.mem_cons, or_comm]

/-- C7 counterexample: on the same text (same tags, same polarity, same word
count) and the same elapsed time, two interpreter runs may return different
`BehavioralSignal`s.  `["python", "rust"]` and `["rust", "python"]` are both
admissible values of `list(set(...))` for the same deduplicated topic set
(CPython string hashing is seed-randomised), yet the resulting signals
differ, and after one fold they produce different `topic_interests` insertion
orders and hence different topic hints. -/
theorem extract_topic_order_not_deterministic :
    IsSetList (map_context_raw tmPR.tags) ["python", "rust"]
  ∧ IsSetList (map_context_raw tmPR.tags) ["rust", "python"]
  ∧ analyze_behavior tmPR 1 ["python", "rust"]
      ≠ analyze_behavior tmPR 1 ["rust", "python"]
  ∧ topic_hint (update_persona (create_new_persona "u")
        (analyze_behavior tmPR 1 ["python", "rust"]))
      ≠ topic_hint (update_persona (create_new_persona "u")
        (analyze_behavior tmPR 1 ["rust", "python"])) := by
  refine ⟨isSetList_PR_fwd, isSetList_PR_rev, ?_, ?_⟩
  · intro h
    exact absurd (congrArg BehavioralData.topics h) (by decide)
  · intro h
    exact absurd h (by decide)

/-- C7 as amended: `analyze_behavior` is deterministic given a fixed
sentiment/topic model *and* a fixed set-enumeration order; across runs only
the order of the returned topic list (and therefore the downstream
`topic_interests` insertion order) may vary — the speed bucket, the emotion,
the message length and the topic *set* always coincide. -/
theorem extract_deterministic_up_to_set_order (tm : TextModel) (t : ℚ)
    (l1 l2 : List String)
    (h1 : IsSetList (map_context_raw tm.tags) l1)
    (h2 : IsSetList (map_context_raw tm.tags) l2) :
    (analyze_behavior tm t l1).typing_speed = (analyze_behavior tm t l2).typing_speed
  ∧ (analyze_behavior tm t l1).emotion = (analyze_behavior tm t l2).emotion
  ∧ (analyze_behavior tm t l1).message_length
      = (analyze_behavior tm t l2).message_length
  ∧ (∀ x, x ∈ (analyze_behavior tm t l1).topics
        ↔ x ∈ (analyze_behavior tm t l2).topics) := by
  refine ⟨rfl, rfl, rfl, fun x => ?_⟩
  exact (h1.2 x).trans (h2.2 x).symm

/-- Witness for the amended C7 at the concrete model `tmPR`, elapsed time 1,
and the two set enumerations of `{"python", "rust"}`. -/
theorem extract_deterministic_up_to_set_order_witness :
    (analyze_behavior tmPR 1 ["python", "rust"]).typing_speed
        = (analyze_behavior tmPR 1 ["rust", "python"]).typing_speed
  ∧ (analyze_behavior tmPR 1 ["python", "rust"]).emotion
        = (analyze_behavior tmPR 1 ["rust", "python"]).emotion
  ∧ (analyze_behavior tmPR 1 ["python", "rust"]).message_length
        = (analyze_behavior tmPR 1 ["rust", "python"]).message_length
  ∧ (∀ x, x ∈ (analyze_behavior tmPR 1 ["python", "rust"]).topics
        ↔ x ∈ (analyze_behavior tmPR 1 ["rust", "python"]).topics) :=
  extract_deterministic_up_to_set_order tmPR 1 ["python", "rust"]
    ["rust", "python"] isSetList_PR_fwd isSetList_PR_rev

/-- C8: when the stored record is corrupt `get_or_create_persona` surfaces the
load error itself — it never silently substitutes a fresh profile — and when
no record exists it returns the default profile: zero interactions, neutral
style and sentiment, all histories and topic interests empty. -/
theorem get_or_create_failure_semantics (user_id e : String) :
    get_or_create_persona user_id (some (Except.error e)) = Except.error e
  ∧ (∀ q : Persona,
      get_or_create_persona user_id (some (Except.error e)) ≠ Except.ok q)
  ∧ get_or_create_persona user_id none = Except.ok (create_new_persona user_id)
  ∧ (create_new_persona user_id).interaction_count = 0
  ∧ (create_new_persona user_id).communication_style = "neutral"
  ∧ (create_new_persona user_id).emotional_state.current_sentiment = "neutral"
  ∧ (create_new_persona user_id).emotional_state.sentiment_history = []
  ∧ (create_new_persona user_id).behavioral_patterns.speed_history = []
  ∧ (create_new_persona user_id).behavioral_patterns.length_history = []
  ∧ (create_new_persona user_id).topic_interests = [] := by
  refine ⟨rfl, ?_, rfl, rfl, rfl, rfl, rfl, rfl, rfl, rfl⟩
  intro q h
  simp [get_or_create_persona] at h

/-! ## Round-trip lemmas for the persistence model -/

theorem decodeNat_encode (n : ℕ) : decodeNat (Json.num (n : ℚ)) = Except.ok n := by
  simp [decodeNat, Rat.den_natCast, Rat.num_natCast]

theorem decodeRatList_encode (l : List ℚ) :
    decodeRatList (l.map Json.num) = Except.ok l := by
  induction l with
  | nil => rfl
  | cons q rest ih => simp [decodeRatList, ih, Except.map]

theorem decodeNatList_encode (l : List ℕ) :
    decodeNatList (l.map (fun n : ℕ => Json.num (n : ℚ))) = Except.ok l := by
  induction l with
  | nil => rfl
  | cons n rest ih =>
      simp only [List.map_cons, decodeNatList, decodeNat_encode, ih,
        Bind.bind, Except.bind]

theorem decodeTopics_encode (l : List (String × ℕ)) :
    decodeTopics (l.map (fun kv : String × ℕ => (kv.1, Json.num (kv.2 : ℚ)))) = Except.ok l := by
  induction l with
  | nil => rfl
  | cons kv rest ih =>
      simp [decodeTopics, decodeNat_encode, ih, Bind.bind, Except.bind]

theorem decodeEmotionalState_encode (cur : String) (sh : List ℚ) :
    decodeEmotionalState (Json.obj
        [("current_sentiment", Json.str cur),
         ("sentiment_history", Json.arr (sh.map Json.num))])
      = Except.ok (EmotionalState.mk cur sh) := by
  show ((do
      let sh' ← decodeRatList (sh.map Json.num)
      Except.ok (EmotionalState.mk cur sh')
      : Except String EmotionalState)
    = Except.ok (EmotionalState.mk cur sh))
  rw [decodeRatList_encode]
  rfl

theorem decodeBehavioralPatterns_encode (ats : String) (sph : List ℕ)
    (aml : ℚ) (lh : List ℕ) :
    decodeBehavioralPatterns (Json.obj
        [("avg_typing_speed", Json.str ats),
         ("speed_history", Json.arr (sph.map (fun n : ℕ => Json.num (n : ℚ)))),
         ("avg_message_length", Json.num aml),
         ("length_history", Json.arr (lh.map (fun n : ℕ => Json.num (n : ℚ))))])
      = Except.ok (BehavioralPatterns.mk ats sph aml lh) := by
  show ((do
      let sph' ← decodeNatList (sph.map (fun n : ℕ => Json.num (n : ℚ)))
      let lh' ← decodeNatList (lh.map (fun n : ℕ => Json.num (n : ℚ)))
      Except.ok (BehavioralPatterns.mk ats sph' aml lh')
      : Except String BehavioralPatterns)
    = Except.ok (BehavioralPatterns.mk ats sph aml lh))
  rw [decodeNatList_encode, decodeNatList_encode]
  rfl

theorem decode_persona_obj (uid cs : String) (es bp icj : Json)
    (ti : List (String × Json)) :
    decode_persona (Json.obj
      [("user_id", Json.str uid),
       ("communication_style", Json.str cs),
       ("emotional_state", es),
       ("behavioral_patterns", bp),
       ("contextual_preferences", Json.obj [("topic_interests", Json.obj ti)]),
       ("interaction_count", icj)])
      = (do
          let es' ← decodeEmotionalState es
          let bp' ← decodeBehavioralPatterns bp
          let ti' ← decodeTopics ti
          let ic ← decodeNat icj
          Except.ok (Persona.mk uid cs es' bp' ti' ic)) := rfl

/-- C9: loading a saved profile reproduces it in every field — the decoder is
a left inverse of the encoder, so `save(load(save(p)))` writes the same
record as `save(p)`. -/
theorem persona_roundtrip (p : Persona) :
    decode_persona (encode_persona p) = Except.ok p := by
  obtain ⟨uid, cs, ⟨cur, sh⟩, ⟨ats, sph, aml, lh⟩, ti, ic⟩ := p
  simp only [encode_persona]
  rw [decode_persona_obj, decodeEmotionalState_encode,
    decodeBehavioralPatterns_encode, decodeTopics_encode, decodeNat_encode]
  rfl

/-- Witness for C6 at the empty fresh profile: the topic hint is empty. -/
theorem top_topics_ordering_witness :
    topic_hint (create_new_persona "u") = "" :=
  (top_topics_ordering (create_new_persona "u") 1).2.2.2.2.2.1 rfl

/-- Witness for C8 at a concrete corrupt record: the result is not a fresh
profile. -/
theorem get_or_create_failure_semantics_witness :
    get_or_create_persona "u" (some (Except.error "bad"))
      ≠ Except.ok (create_new_persona "u") :=
  (get_or_create_failure_semantics "u" "bad").2.1 (create_new_persona "u")

end PersonaBot
